import Mathlib

/-!
Shallow embedding of the noise-rs core (Perlin gradient noise and the
HybridMulti fractal combinator) and proofs of the specification claims.

Floating-point (`f64`) arithmetic is embedded over `ℚ`: every operation the
kernels perform (add, sub, mul, floor, max, powers, clamp) is exact rational
arithmetic here, so the algebraic structure of the code is preserved while
keeping every definition computable and every equality decidable.

Files `math.rs`, `permutationtable.rs`, `gradient.rs` and the fractal
module's `build_sources` are not part of the given sources; the definitions
for them below are modelled from the spec (each marked so in its doc
comment).  Everything else is translated directly from
`src/noise_fns/generators/perlin.rs` and
`src/noise_fns/generators/fractals/hybridmulti.rs`.
-/

namespace NoiseRs

/-- Modelled from the spec: `math::clamp` for floats — parameter setters and
the 4-D kernel clamp values into `[lo, hi]` (missing `math.rs`). -/
def clampQ (v lo hi : ℚ) : ℚ :=
  if v < lo then lo else if v > hi then hi else v

/-- Modelled from the spec: `math::clamp` on `usize` — `octaves` is "silently
clamped to [1, 32]" (missing `math.rs`). -/
def clampN (v lo hi : ℕ) : ℕ :=
  if v < lo then lo else if v > hi then hi else v

/-- Modelled from the spec: the quintic smoothing curve
`6t⁵ − 15t⁴ + 10t³` (`interp::s_curve5`, missing `math.rs`). -/
def s_curve5 (t : ℚ) : ℚ :=
  6 * t ^ 5 - 15 * t ^ 4 + 10 * t ^ 3

/-- Modelled from the spec: 4-D dot product (`math::dot4`, missing
`math.rs`). -/
def dot4 (a b : ℚ × ℚ × ℚ × ℚ) : ℚ :=
  a.1 * b.1 + a.2.1 * b.2.1 + a.2.2.1 * b.2.2.1 + a.2.2.2 * b.2.2.2

/-- Modelled from the spec: the permutation table is "an immutable fixed-size
array (conventionally 256 entries ...) of byte-range integers"
(missing `permutationtable.rs`). -/
structure PermutationTable where
  values : Fin 256 → Fin 256

/-- Wrap an integer lattice coordinate into a table index
(all lookups "wrap via modulo/mask so any integer input is valid"). -/
def wrap256 (n : ℤ) : Fin 256 :=
  ⟨(n % 256).toNat, by
    have h1 : 0 ≤ n % 256 := Int.emod_nonneg n (by norm_num)
    have h2 : n % 256 < 256 := Int.emod_lt_of_pos n (by norm_num)
    omega⟩

/-- Modelled from the spec: the hash "combines the D integer coordinates
(modulo table size) by repeated look up, then add the next coordinate, then
look up again chaining" — 2-D case (missing `permutationtable.rs`). -/
def PermutationTable.get2 (t : PermutationTable) (c : ℤ × ℤ) : ℕ :=
  t.values (wrap256 ((t.values (wrap256 c.1) : ℕ) + c.2))

/-- Modelled from the spec: the coordinate-chaining hash, 3-D case. -/
def PermutationTable.get3 (t : PermutationTable) (c : ℤ × ℤ × ℤ) : ℕ :=
  t.values (wrap256 ((t.values (wrap256 ((t.values (wrap256 c.1) : ℕ) + c.2.1)) : ℕ) + c.2.2))

/-- Modelled from the spec: the coordinate-chaining hash, 4-D case. -/
def PermutationTable.get4 (t : PermutationTable) (c : ℤ × ℤ × ℤ × ℤ) : ℕ :=
  t.values (wrap256 ((t.values (wrap256 ((t.values (wrap256 ((t.values (wrap256 c.1) : ℕ) + c.2.1)) : ℕ) + c.2.2.1)) : ℕ) + c.2.2.2))

/-- A linear-congruential step, the deterministic pseudo-random sequence that
drives the table shuffle (the spec leaves the exact PRNG open; it only
requires a fixed deterministic one). -/
def lcg (s : ℕ) : ℕ := (s * 1664525 + 1013904223) % 2 ^ 32

/-- Swap two positions of the table function. -/
def swapF (f : Fin 256 → Fin 256) (i j : Fin 256) : Fin 256 → Fin 256 :=
  fun k => if k = i then f j else if k = j then f i else f k

/-- Fisher–Yates walk from position `i` down to 1: swap position `i` with a
pseudo-randomly chosen earlier-or-equal position. -/
def fyAux : ℕ → (Fin 256 → Fin 256) → ℕ → (Fin 256 → Fin 256)
  | 0, f, _ => f
  | i + 1, f, s =>
      fyAux i (swapF f ⟨(i + 1) % 256, Nat.mod_lt _ (by norm_num)⟩
                       ⟨lcg s % (i + 2) % 256, Nat.mod_lt _ (by norm_num)⟩)
              (lcg s)

/-- Modelled from the spec: `PermutationTable::new(seed)` "builds the
fixed-size index array as the identity permutation, then shuffles it using a
uniform pseudo-random sequence seeded deterministically from `seed`
(Fisher–Yates-style in-place shuffle)" (missing `permutationtable.rs`). -/
def PermutationTable.new (seed : ℕ) : PermutationTable :=
  { values := fyAux 255 id (lcg seed) }

/-- Struct `Perlin` from `perlin.rs`: a seed and the permutation table derived
from it. -/
structure Perlin where
  seed : ℕ
  perm_table : PermutationTable

/-- Constant `Perlin::DEFAULT_SEED`. -/
def Perlin.DEFAULT_SEED : ℕ := 0

/-- Constructor `Perlin::new()`. -/
def Perlin.new : Perlin :=
  { seed := Perlin.DEFAULT_SEED
    perm_table := PermutationTable.new Perlin.DEFAULT_SEED }

/-- Method `Seedable for Perlin::set_seed`: return `self` when the seed is
unchanged, otherwise regenerate the permutation table from the new seed. -/
def Perlin.set_seed (p : Perlin) (seed : ℕ) : Perlin :=
  if p.seed = seed then p
  else { seed := seed, perm_table := PermutationTable.new seed }

/-- The 2-D `gradient_dot_v` exactly as written in `perlin.rs`: the wildcard
arm is `unreachable!()`, embedded as `none`. -/
def gradientDotV2? (perm : ℕ) (x y : ℚ) : Option ℚ :=
  match perm % 4 with
  | 0 => some (x + y)       -- ( 1,  1)
  | 1 => some (-x + y)      -- (-1,  1)
  | 2 => some (x - y)       -- ( 1, -1)
  | 3 => some (-x - y)      -- (-1, -1)
  | _ + 4 => none           -- unreachable!()

/-- Total form of the 2-D `gradient_dot_v` (the wildcard arm is dead: see
the totality lemma below). -/
def gradientDotV2 (perm : ℕ) (x y : ℚ) : ℚ :=
  match perm % 4 with
  | 0 => x + y
  | 1 => -x + y
  | 2 => x - y
  | _ => -x - y

/-- The 3-D `gradient_dot_v` exactly as written in `perlin.rs`, wildcard
(`unreachable!()`) embedded as `none`. -/
def gradientDotV3? (perm : ℕ) (x y z : ℚ) : Option ℚ :=
  match perm % 16 with
  | 0  => some (x + y)      -- ( 1,  1,  0)
  | 1  => some (-x + y)     -- (-1,  1,  0)
  | 2  => some (x - y)      -- ( 1, -1,  0)
  | 3  => some (-x - y)     -- (-1, -1,  0)
  | 4  => some (x + z)      -- ( 1,  0,  1)
  | 5  => some (-x + z)     -- (-1,  0,  1)
  | 6  => some (x - z)      -- ( 1,  0, -1)
  | 7  => some (-x - z)     -- (-1,  0, -1)
  | 8  => some (y + z)      -- ( 0,  1,  1)
  | 9  => some (-y + z)     -- ( 0, -1,  1)
  | 10 => some (y - z)      -- ( 0,  1, -1)
  | 11 => some (-y - z)     -- ( 0, -1, -1)
  | 12 => some (x + y)      -- ( 1,  1,  0)
  | 13 => some (-x + y)     -- (-1,  1,  0)
  | 14 => some (-y + z)     -- ( 0, -1,  1)
  | 15 => some (-y - z)     -- ( 0, -1, -1)
  | _ + 16 => none          -- unreachable!()

/-- Total form of the 3-D `gradient_dot_v`. -/
def gradientDotV3 (perm : ℕ) (x y z : ℚ) : ℚ :=
  match perm % 16 with
  | 0  => x + y
  | 1  => -x + y
  | 2  => x - y
  | 3  => -x - y
  | 4  => x + z
  | 5  => -x + z
  | 6  => x - z
  | 7  => -x - z
  | 8  => y + z
  | 9  => -y + z
  | 10 => y - z
  | 11 => -y - z
  | 12 => x + y
  | 13 => -x + y
  | 14 => -y + z
  | _  => -y - z

/-- Kernel `NoiseFn<Point2<f64>> for Perlin::get`, translated line by line. -/
def Perlin.get2 (p : Perlin) (point : ℚ × ℚ) : ℚ :=
  let floored : ℚ × ℚ := (⌊point.1⌋, ⌊point.2⌋)
  let near_corner : ℤ × ℤ := (⌊point.1⌋, ⌊point.2⌋)
  let far_corner : ℤ × ℤ := (near_corner.1 + 1, near_corner.2 + 1)
  let near_distance : ℚ × ℚ := (point.1 - floored.1, point.2 - floored.2)
  let far_distance : ℚ × ℚ := (near_distance.1 - 1, near_distance.2 - 1)
  let u := s_curve5 near_distance.1
  let v := s_curve5 near_distance.2
  let a := gradientDotV2 (p.perm_table.get2 near_corner) near_distance.1 near_distance.2
  let b := gradientDotV2 (p.perm_table.get2 (far_corner.1, near_corner.2)) far_distance.1 near_distance.2
  let c := gradientDotV2 (p.perm_table.get2 (near_corner.1, far_corner.2)) near_distance.1 far_distance.2
  let d := gradientDotV2 (p.perm_table.get2 far_corner) far_distance.1 far_distance.2
  let k0 := a
  let k1 := b - a
  let k2 := c - a
  let k3 := a + d - b - c
  k0 + k1 * u + k2 * v + k3 * u * v

/-- Kernel `NoiseFn<Point3<f64>> for Perlin::get`, translated line by line. -/
def Perlin.get3 (p : Perlin) (point : ℚ × ℚ × ℚ) : ℚ :=
  let floored : ℚ × ℚ × ℚ := (⌊point.1⌋, ⌊point.2.1⌋, ⌊point.2.2⌋)
  let near_corner : ℤ × ℤ × ℤ := (⌊point.1⌋, ⌊point.2.1⌋, ⌊point.2.2⌋)
  let far_corner : ℤ × ℤ × ℤ :=
    (near_corner.1 + 1, near_corner.2.1 + 1, near_corner.2.2 + 1)
  let nd : ℚ × ℚ × ℚ :=
    (point.1 - floored.1, point.2.1 - floored.2.1, point.2.2 - floored.2.2)
  let fd : ℚ × ℚ × ℚ := (nd.1 - 1, nd.2.1 - 1, nd.2.2 - 1)
  let u := s_curve5 nd.1
  let v := s_curve5 nd.2.1
  let w := s_curve5 nd.2.2
  let a := gradientDotV3 (p.perm_table.get3 near_corner) nd.1 nd.2.1 nd.2.2
  let b := gradientDotV3
    (p.perm_table.get3 (far_corner.1, near_corner.2.1, near_corner.2.2))
    fd.1 nd.2.1 nd.2.2
  let c := gradientDotV3
    (p.perm_table.get3 (near_corner.1, far_corner.2.1, near_corner.2.2))
    nd.1 fd.2.1 nd.2.2
  let d := gradientDotV3
    (p.perm_table.get3 (far_corner.1, far_corner.2.1, near_corner.2.2))
    fd.1 fd.2.1 nd.2.2
  let e := gradientDotV3
    (p.perm_table.get3 (near_corner.1, near_corner.2.1, far_corner.2.2))
    nd.1 nd.2.1 fd.2.2
  let f := gradientDotV3
    (p.perm_table.get3 (far_corner.1, near_corner.2.1, far_corner.2.2))
    fd.1 nd.2.1 fd.2.2
  let g := gradientDotV3
    (p.perm_table.get3 (near_corner.1, far_corner.2.1, far_corner.2.2))
    nd.1 fd.2.1 fd.2.2
  let h := gradientDotV3 (p.perm_table.get3 far_corner) fd.1 fd.2.1 fd.2.2
  let k0 := a
  let k1 := b - a
  let k2 := c - a
  let k3 := e - a
  let k4 := a + d - b - c
  let k5 := a + f - b - e
  let k6 := a + g - c - e
  let k7 := b + c + e + h - a - d - f - g
  k0 + k1 * u + k2 * v + k3 * w + k4 * u * v + k5 * u * w + k6 * v * w +
    k7 * u * v * w

/-- Modelled from the spec: the 4-D gradient direction table, "fixed catalogs
of unit-scale direction vectors ... for 4-D (32 entries), indexed by the low
bits of a permutation-table lookup result", coordinates in `{-1, 0, 1}`
(missing `gradient.rs`). -/
def gradient.get4 (index : ℕ) : ℚ × ℚ × ℚ × ℚ :=
  match index % 32 with
  | 0  => (0, 1, 1, 1)
  | 1  => (0, 1, 1, -1)
  | 2  => (0, 1, -1, 1)
  | 3  => (0, 1, -1, -1)
  | 4  => (0, -1, 1, 1)
  | 5  => (0, -1, 1, -1)
  | 6  => (0, -1, -1, 1)
  | 7  => (0, -1, -1, -1)
  | 8  => (1, 0, 1, 1)
  | 9  => (1, 0, 1, -1)
  | 10 => (1, 0, -1, 1)
  | 11 => (1, 0, -1, -1)
  | 12 => (-1, 0, 1, 1)
  | 13 => (-1, 0, 1, -1)
  | 14 => (-1, 0, -1, 1)
  | 15 => (-1, 0, -1, -1)
  | 16 => (1, 1, 0, 1)
  | 17 => (1, 1, 0, -1)
  | 18 => (1, -1, 0, 1)
  | 19 => (1, -1, 0, -1)
  | 20 => (-1, 1, 0, 1)
  | 21 => (-1, 1, 0, -1)
  | 22 => (-1, -1, 0, 1)
  | 23 => (-1, -1, 0, -1)
  | 24 => (1, 1, 1, 0)
  | 25 => (1, 1, -1, 0)
  | 26 => (1, -1, 1, 0)
  | 27 => (1, -1, -1, 0)
  | 28 => (-1, 1, 1, 0)
  | 29 => (-1, 1, -1, 0)
  | 30 => (-1, -1, 1, 0)
  | _  => (-1, -1, -1, 0)

/-- The per-corner `surflet` helper of the 4-D kernel, as written in
`perlin.rs`. -/
def surflet (t : PermutationTable) (corner : ℤ × ℤ × ℤ × ℤ)
    (distance : ℚ × ℚ × ℚ × ℚ) : ℚ :=
  let attn : ℚ := 1 - dot4 distance distance
  if attn > 0 then
    attn ^ 4 * dot4 distance (gradient.get4 (t.get4 corner))
  else
    0

/-- The scale constant of the 4-D kernel
(`4.424369240215691` in `perlin.rs`). -/
def perlin4Scale : ℚ := 4424369240215691 / 10 ^ 15

/-- Kernel `NoiseFn<Point4<f64>> for Perlin::get`, translated line by line: the 16
corner surflets are summed, scaled, and clamped to `[-1, 1]`. -/
def Perlin.get4 (p : Perlin) (point : ℚ × ℚ × ℚ × ℚ) : ℚ :=
  let floored : ℚ × ℚ × ℚ × ℚ :=
    (⌊point.1⌋, ⌊point.2.1⌋, ⌊point.2.2.1⌋, ⌊point.2.2.2⌋)
  let nc : ℤ × ℤ × ℤ × ℤ :=
    (⌊point.1⌋, ⌊point.2.1⌋, ⌊point.2.2.1⌋, ⌊point.2.2.2⌋)
  let fc : ℤ × ℤ × ℤ × ℤ :=
    (nc.1 + 1, nc.2.1 + 1, nc.2.2.1 + 1, nc.2.2.2 + 1)
  let nd : ℚ × ℚ × ℚ × ℚ :=
    (point.1 - floored.1, point.2.1 - floored.2.1,
     point.2.2.1 - floored.2.2.1, point.2.2.2 - floored.2.2.2)
  let fd : ℚ × ℚ × ℚ × ℚ := (nd.1 - 1, nd.2.1 - 1, nd.2.2.1 - 1, nd.2.2.2 - 1)
  let f0000 := surflet p.perm_table (nc.1, nc.2.1, nc.2.2.1, nc.2.2.2)
    (nd.1, nd.2.1, nd.2.2.1, nd.2.2.2)
  let f1000 := surflet p.perm_table (fc.1, nc.2.1, nc.2.2.1, nc.2.2.2)
    (fd.1, nd.2.1, nd.2.2.1, nd.2.2.2)
  let f0100 := surflet p.perm_table (nc.1, fc.2.1, nc.2.2.1, nc.2.2.2)
    (nd.1, fd.2.1, nd.2.2.1, nd.2.2.2)
  let f1100 := surflet p.perm_table (fc.1, fc.2.1, nc.2.2.1, nc.2.2.2)
    (fd.1, fd.2.1, nd.2.2.1, nd.2.2.2)
  let f0010 := surflet p.perm_table (nc.1, nc.2.1, fc.2.2.1, nc.2.2.2)
    (nd.1, nd.2.1, fd.2.2.1, nd.2.2.2)
  let f1010 := surflet p.perm_table (fc.1, nc.2.1, fc.2.2.1, nc.2.2.2)
    (fd.1, nd.2.1, fd.2.2.1, nd.2.2.2)
  let f0110 := surflet p.perm_table (nc.1, fc.2.1, fc.2.2.1, nc.2.2.2)
    (nd.1, fd.2.1, fd.2.2.1, nd.2.2.2)
  let f1110 := surflet p.perm_table (fc.1, fc.2.1, fc.2.2.1, nc.2.2.2)
    (fd.1, fd.2.1, fd.2.2.1, nd.2.2.2)
  let f0001 := surflet p.perm_table (nc.1, nc.2.1, nc.2.2.1, fc.2.2.2)
    (nd.1, nd.2.1, nd.2.2.1, fd.2.2.2)
  let f1001 := surflet p.perm_table (fc.1, nc.2.1, nc.2.2.1, fc.2.2.2)
    (fd.1, nd.2.1, nd.2.2.1, fd.2.2.2)
  let f0101 := surflet p.perm_table (nc.1, fc.2.1, nc.2.2.1, fc.2.2.2)
    (nd.1, fd.2.1, nd.2.2.1, fd.2.2.2)
  let f1101 := surflet p.perm_table (fc.1, fc.2.1, nc.2.2.1, fc.2.2.2)
    (fd.1, fd.2.1, nd.2.2.1, fd.2.2.2)
  let f0011 := surflet p.perm_table (nc.1, nc.2.1, fc.2.2.1, fc.2.2.2)
    (nd.1, nd.2.1, fd.2.2.1, fd.2.2.2)
  let f1011 := surflet p.perm_table (fc.1, nc.2.1, fc.2.2.1, fc.2.2.2)
    (fd.1, nd.2.1, fd.2.2.1, fd.2.2.2)
  let f0111 := surflet p.perm_table (nc.1, fc.2.1, fc.2.2.1, fc.2.2.2)
    (nd.1, fd.2.1, fd.2.2.1, fd.2.2.2)
  let f1111 := surflet p.perm_table (fc.1, fc.2.1, fc.2.2.1, fc.2.2.2)
    (fd.1, fd.2.1, fd.2.2.1, fd.2.2.2)
  clampQ
    ((f0000 + f1000 + f0100 + f1100 + f0010 + f1010 + f0110 + f1110 + f0001 +
        f1001 + f0101 + f1101 + f0011 + f1011 + f0111 + f1111) * perlin4Scale)
    (-1) 1

/-- Modelled from the spec: `build_sources(seed, octaves)` (missing fractal
module file) — "each of the `octaves` sources must be independently and
deterministically seeded from the combinator's seed (e.g. ... seed+octave-
index)"; seed addition wraps at the `u32` boundary. -/
def build_sources (seed octaves : ℕ) : List Perlin :=
  (List.range octaves).map fun x => Perlin.new.set_seed ((seed + x) % 2 ^ 32)

/-- Struct `HybridMulti` from `hybridmulti.rs`. -/
structure HybridMulti where
  octaves : ℕ
  frequency : ℚ
  lacunarity : ℚ
  persistence : ℚ
  seed : ℕ
  sources : List Perlin

/-- Constant `HybridMulti::DEFAULT_SEED`. -/
def HybridMulti.DEFAULT_SEED : ℕ := 0

/-- Constant `HybridMulti::DEFAULT_OCTAVES`. -/
def HybridMulti.DEFAULT_OCTAVES : ℕ := 6

/-- Constant `HybridMulti::DEFAULT_FREQUENCY`. -/
def HybridMulti.DEFAULT_FREQUENCY : ℚ := 2

/-- Constant `HybridMulti::DEFAULT_LACUNARITY` is `std::f64::consts::PI * 2.0 / 3.0`;
the exact rational value of that `f64` result is the dyadic below. -/
def HybridMulti.DEFAULT_LACUNARITY : ℚ := 4716158501352293 / 2 ^ 51

/-- Constant `HybridMulti::DEFAULT_PERSISTENCE`. -/
def HybridMulti.DEFAULT_PERSISTENCE : ℚ := 1 / 4

/-- Constant `HybridMulti::MAX_OCTAVES`. -/
def HybridMulti.MAX_OCTAVES : ℕ := 32

/-- Constructor `HybridMulti::new()`. -/
def HybridMulti.new : HybridMulti :=
  { seed := HybridMulti.DEFAULT_SEED
    octaves := HybridMulti.DEFAULT_OCTAVES
    frequency := HybridMulti.DEFAULT_FREQUENCY
    lacunarity := HybridMulti.DEFAULT_LACUNARITY
    persistence := HybridMulti.DEFAULT_PERSISTENCE
    sources := build_sources HybridMulti.DEFAULT_SEED HybridMulti.DEFAULT_OCTAVES }

/-- Method `MultiFractal for HybridMulti::set_octaves`: no-op when unchanged,
otherwise clamp to `[1, MAX_OCTAVES]` and rebuild the sources with the same
seed. -/
def HybridMulti.set_octaves (hm : HybridMulti) (octaves : ℕ) : HybridMulti :=
  if hm.octaves = octaves then hm
  else
    let octaves := clampN octaves 1 HybridMulti.MAX_OCTAVES
    { hm with octaves := octaves, sources := build_sources hm.seed octaves }

/-- Method `MultiFractal for HybridMulti::set_frequency`. -/
def HybridMulti.set_frequency (hm : HybridMulti) (frequency : ℚ) : HybridMulti :=
  { hm with frequency := frequency }

/-- Method `MultiFractal for HybridMulti::set_lacunarity`. -/
def HybridMulti.set_lacunarity (hm : HybridMulti) (lacunarity : ℚ) : HybridMulti :=
  { hm with lacunarity := lacunarity }

/-- Method `MultiFractal for HybridMulti::set_persistence`. -/
def HybridMulti.set_persistence (hm : HybridMulti) (persistence : ℚ) : HybridMulti :=
  { hm with persistence := persistence }

/-- Method `Seedable for HybridMulti::set_seed`: no-op when unchanged, otherwise
rebuild the sources with the new seed. -/
def HybridMulti.set_seed (hm : HybridMulti) (seed : ℕ) : HybridMulti :=
  if hm.seed = seed then hm
  else { hm with seed := seed, sources := build_sources seed hm.octaves }

/-- Method `Seedable for HybridMulti::seed`. -/
def HybridMulti.seedOf (hm : HybridMulti) : ℕ := hm.seed

/-- Indexing `self.sources[x]` (the indexing the `get` kernels perform; total here via
a default, justified by the `sources.length = octaves` invariant). -/
def HybridMulti.sourceAt (hm : HybridMulti) (x : ℕ) : Perlin :=
  hm.sources.getD x Perlin.new

/-- Loop body of the 2-D `HybridMulti::get` octave loop, acting on the
state `(point, result, weight)`. -/
def HybridMulti.octaveStep2 (hm : HybridMulti) (st : (ℚ × ℚ) × ℚ × ℚ)
    (x : ℕ) : (ℚ × ℚ) × ℚ × ℚ :=
  let point := st.1
  let result := st.2.1
  let weight := max st.2.2 1
  let point := (point.1 * hm.lacunarity, point.2 * hm.lacunarity)
  let signal := (hm.sourceAt x).get2 point * hm.persistence ^ x
  (point, result + weight * signal, weight * signal)

/-- Kernel `NoiseFn<Point2<f64>> for HybridMulti::get`: first octave scaled by
`frequency` and weighted by `persistence`, then the spectral-construction
loop over octave indices `1 .. octaves-1`, and finally the `* 3.0` rescale. -/
def HybridMulti.get2 (hm : HybridMulti) (point : ℚ × ℚ) : ℚ :=
  let point := (point.1 * hm.frequency, point.2 * hm.frequency)
  let result := (hm.sourceAt 0).get2 point * hm.persistence
  let st := (List.range' 1 (hm.octaves - 1)).foldl hm.octaveStep2
    (point, result, result)
  st.2.1 * 3

/-- Loop body of the 3-D `HybridMulti::get` octave loop. -/
def HybridMulti.octaveStep3 (hm : HybridMulti) (st : (ℚ × ℚ × ℚ) × ℚ × ℚ)
    (x : ℕ) : (ℚ × ℚ × ℚ) × ℚ × ℚ :=
  let point := st.1
  let result := st.2.1
  let weight := max st.2.2 1
  let point := (point.1 * hm.lacunarity, point.2.1 * hm.lacunarity,
    point.2.2 * hm.lacunarity)
  let signal := (hm.sourceAt x).get3 point * hm.persistence ^ x
  (point, result + weight * signal, weight * signal)

/-- Kernel `NoiseFn<Point3<f64>> for HybridMulti::get`. -/
def HybridMulti.get3 (hm : HybridMulti) (point : ℚ × ℚ × ℚ) : ℚ :=
  let point := (point.1 * hm.frequency, point.2.1 * hm.frequency,
    point.2.2 * hm.frequency)
  let result := (hm.sourceAt 0).get3 point * hm.persistence
  let st := (List.range' 1 (hm.octaves - 1)).foldl hm.octaveStep3
    (point, result, result)
  st.2.1 * 3

/-- Loop body of the 4-D `HybridMulti::get` octave loop. -/
def HybridMulti.octaveStep4 (hm : HybridMulti)
    (st : (ℚ × ℚ × ℚ × ℚ) × ℚ × ℚ) (x : ℕ) : (ℚ × ℚ × ℚ × ℚ) × ℚ × ℚ :=
  let point := st.1
  let result := st.2.1
  let weight := max st.2.2 1
  let point := (point.1 * hm.lacunarity, point.2.1 * hm.lacunarity,
    point.2.2.1 * hm.lacunarity, point.2.2.2 * hm.lacunarity)
  let signal := (hm.sourceAt x).get4 point * hm.persistence ^ x
  (point, result + weight * signal, weight * signal)

/-- Kernel `NoiseFn<Point4<f64>> for HybridMulti::get`. -/
def HybridMulti.get4 (hm : HybridMulti) (point : ℚ × ℚ × ℚ × ℚ) : ℚ :=
  let point := (point.1 * hm.frequency, point.2.1 * hm.frequency,
    point.2.2.1 * hm.frequency, point.2.2.2 * hm.frequency)
  let result := (hm.sourceAt 0).get4 point * hm.persistence
  let st := (List.range' 1 (hm.octaves - 1)).foldl hm.octaveStep4
    (point, result, result)
  st.2.1 * 3

/-! ### Spec-side definitions

The definitions below transcribe the *spec's words* (not the code); the
refinement theorems compare them with the code-side definitions above. -/

/-- Dot product in 2-D, for the spec-side formulations. -/
def dot2 (a b : ℚ × ℚ) : ℚ := a.1 * b.1 + a.2 * b.2

/-- Spec-side wording of C6: "select one of exactly 4 gradient directions via
the low 2 bits of the hash (directions: (1,1), (-1,1), (1,-1), (-1,-1))". -/
def specGradient2 (hash : ℕ) : ℚ × ℚ :=
  match hash % 4 with
  | 0 => (1, 1)
  | 1 => (-1, 1)
  | 2 => (1, -1)
  | _ => (-1, -1)

/-- Spec-side wording of C6: the whole 2-D kernel — quintic-smoothed weights
`u,v`, per-corner dot product of the selected gradient with the corner's
fractional offset, and the `k0..k3` bilinear blend. -/
def specPerlinGet2 (p : Perlin) (q : ℚ × ℚ) : ℚ :=
  let nc : ℤ × ℤ := (⌊q.1⌋, ⌊q.2⌋)
  let fc : ℤ × ℤ := (nc.1 + 1, nc.2 + 1)
  let nd : ℚ × ℚ := (q.1 - ⌊q.1⌋, q.2 - ⌊q.2⌋)
  let fd : ℚ × ℚ := (nd.1 - 1, nd.2 - 1)
  let u := s_curve5 nd.1
  let v := s_curve5 nd.2
  let a := dot2 (specGradient2 (p.perm_table.get2 nc)) nd
  let b := dot2 (specGradient2 (p.perm_table.get2 (fc.1, nc.2))) (fd.1, nd.2)
  let c := dot2 (specGradient2 (p.perm_table.get2 (nc.1, fc.2))) (nd.1, fd.2)
  let d := dot2 (specGradient2 (p.perm_table.get2 fc)) fd
  let k0 := a
  let k1 := b - a
  let k2 := c - a
  let k3 := a + d - b - c
  k0 + k1 * u + k2 * v + k3 * u * v

/-- Spec-side wording of C5: the surflet term — "with attn = 1 - dot(offset,
offset) for that corner's fractional offset, the term is attn^4 *
dot(offset, gradient) when attn > 0 and 0 otherwise". -/
def specSurflet (t : PermutationTable) (corner : ℤ × ℤ × ℤ × ℤ)
    (offset : ℚ × ℚ × ℚ × ℚ) : ℚ :=
  let attn := 1 - dot4 offset offset
  if attn > 0 then attn ^ 4 * dot4 offset (gradient.get4 (t.get4 corner))
  else 0

/-- The 16 near/far selectors of a 4-D cell (false = near, true = far). -/
def corners4 : List (Bool × Bool × Bool × Bool) :=
  [(false, false, false, false), (true, false, false, false),
   (false, true, false, false), (true, true, false, false),
   (false, false, true, false), (true, false, true, false),
   (false, true, true, false), (true, true, true, false),
   (false, false, false, true), (true, false, false, true),
   (false, true, false, true), (true, true, false, true),
   (false, false, true, true), (true, false, true, true),
   (false, true, true, true), (true, true, true, true)]

/-- Choose the near or the far value for one axis. -/
def pickNF {α : Type} : Bool → α → α → α
  | false, n, _ => n
  | true, _, f => f

/-- Spec-side wording of C5: "S is the sum over the 16 cell corners of a
surflet term". -/
def specSurfletSum (p : Perlin) (q : ℚ × ℚ × ℚ × ℚ) : ℚ :=
  let nc : ℤ × ℤ × ℤ × ℤ := (⌊q.1⌋, ⌊q.2.1⌋, ⌊q.2.2.1⌋, ⌊q.2.2.2⌋)
  let fc : ℤ × ℤ × ℤ × ℤ := (nc.1 + 1, nc.2.1 + 1, nc.2.2.1 + 1, nc.2.2.2 + 1)
  let nd : ℚ × ℚ × ℚ × ℚ :=
    (q.1 - ⌊q.1⌋, q.2.1 - ⌊q.2.1⌋, q.2.2.1 - ⌊q.2.2.1⌋, q.2.2.2 - ⌊q.2.2.2⌋)
  let fd : ℚ × ℚ × ℚ × ℚ := (nd.1 - 1, nd.2.1 - 1, nd.2.2.1 - 1, nd.2.2.2 - 1)
  (corners4.map fun s =>
    specSurflet p.perm_table
      (pickNF s.1 nc.1 fc.1, pickNF s.2.1 nc.2.1 fc.2.1,
       pickNF s.2.2.1 nc.2.2.1 fc.2.2.1, pickNF s.2.2.2 nc.2.2.2 fc.2.2.2)
      (pickNF s.1 nd.1 fd.1, pickNF s.2.1 nd.2.1 fd.2.1,
       pickNF s.2.2.1 nd.2.2.1 fd.2.2.1, pickNF s.2.2.2 nd.2.2.2 fd.2.2.2)).sum

/-- Spec-side wording of C1 (2-D): the state `(q_i, result_i, weight_i)`
after octave index `i`, exactly as the claim narrates it. -/
def specHybridState2 (hm : HybridMulti) (q : ℚ × ℚ) :
    ℕ → (ℚ × ℚ) × ℚ × ℚ
  | 0 =>
      let q0 := (q.1 * hm.frequency, q.2 * hm.frequency)
      let r0 := (hm.sourceAt 0).get2 q0 * hm.persistence
      (q0, r0, r0)
  | i + 1 =>
      let prev := specHybridState2 hm q i
      let weight := max prev.2.2 1
      let qi := (prev.1.1 * hm.lacunarity, prev.1.2 * hm.lacunarity)
      let signal := (hm.sourceAt (i + 1)).get2 qi * hm.persistence ^ (i + 1)
      (qi, prev.2.1 + weight * signal, weight * signal)

/-- Spec-side wording of C1 (2-D): the final result of the narrated
computation, multiplied by 3.0. -/
def specHybridGet2 (hm : HybridMulti) (q : ℚ × ℚ) : ℚ :=
  (specHybridState2 hm q (hm.octaves - 1)).2.1 * 3

/-- Spec-side wording of C1 (3-D). -/
def specHybridState3 (hm : HybridMulti) (q : ℚ × ℚ × ℚ) :
    ℕ → (ℚ × ℚ × ℚ) × ℚ × ℚ
  | 0 =>
      let q0 := (q.1 * hm.frequency, q.2.1 * hm.frequency, q.2.2 * hm.frequency)
      let r0 := (hm.sourceAt 0).get3 q0 * hm.persistence
      (q0, r0, r0)
  | i + 1 =>
      let prev := specHybridState3 hm q i
      let weight := max prev.2.2 1
      let qi := (prev.1.1 * hm.lacunarity, prev.1.2.1 * hm.lacunarity,
        prev.1.2.2 * hm.lacunarity)
      let signal := (hm.sourceAt (i + 1)).get3 qi * hm.persistence ^ (i + 1)
      (qi, prev.2.1 + weight * signal, weight * signal)

/-- Spec-side wording of C1 (3-D): final result times 3.0. -/
def specHybridGet3 (hm : HybridMulti) (q : ℚ × ℚ × ℚ) : ℚ :=
  (specHybridState3 hm q (hm.octaves - 1)).2.1 * 3

/-- Spec-side wording of C1 (4-D). -/
def specHybridState4 (hm : HybridMulti) (q : ℚ × ℚ × ℚ × ℚ) :
    ℕ → (ℚ × ℚ × ℚ × ℚ) × ℚ × ℚ
  | 0 =>
      let q0 := (q.1 * hm.frequency, q.2.1 * hm.frequency,
        q.2.2.1 * hm.frequency, q.2.2.2 * hm.frequency)
      let r0 := (hm.sourceAt 0).get4 q0 * hm.persistence
      (q0, r0, r0)
  | i + 1 =>
      let prev := specHybridState4 hm q i
      let weight := max prev.2.2 1
      let qi := (prev.1.1 * hm.lacunarity, prev.1.2.1 * hm.lacunarity,
        prev.1.2.2.1 * hm.lacunarity, prev.1.2.2.2 * hm.lacunarity)
      let signal := (hm.sourceAt (i + 1)).get4 qi * hm.persistence ^ (i + 1)
      (qi, prev.2.1 + weight * signal, weight * signal)

/-- Spec-side wording of C1 (4-D): final result times 3.0. -/
def specHybridGet4 (hm : HybridMulti) (q : ℚ × ℚ × ℚ × ℚ) : ℚ :=
  (specHybridState4 hm q (hm.octaves - 1)).2.1 * 3

/-! ### Reachability predicates and concrete test fixtures -/

/-- Perlin instances constructible through the public API:
`Perlin::new()` followed by any finite sequence of `set_seed` calls. -/
inductive PerlinReach : Perlin → Prop
  | base : PerlinReach Perlin.new
  | reseed (p : Perlin) (s : ℕ) : PerlinReach p → PerlinReach (p.set_seed s)

/-- HybridMulti instances constructible through the public API:
`HybridMulti::new()` followed by any finite sequence of `set_octaves` and
`set_seed` calls. -/
inductive HybridReach : HybridMulti → Prop
  | base : HybridReach HybridMulti.new
  | octs (hm : HybridMulti) (n : ℕ) :
      HybridReach hm → HybridReach (hm.set_octaves n)
  | reseed (hm : HybridMulti) (s : ℕ) :
      HybridReach hm → HybridReach (hm.set_seed s)

/-- A concrete table (all entries 0) for closed-form evaluation. -/
def tableZero : PermutationTable := ⟨fun _ => 0⟩

/-- A concrete Perlin instance over `tableZero`. -/
def pZero : Perlin := ⟨0, tableZero⟩

/-- A concrete single-octave HybridMulti instance over `pZero`
(frequency, lacunarity and persistence all 1). -/
def hmOne : HybridMulti :=
  { octaves := 1, frequency := 1, lacunarity := 1, persistence := 1,
    seed := 0, sources := [pZero] }

/-! ### Helper lemmas -/

/-- The fallible 2-D gradient matcher never takes its `unreachable!()` arm:
it agrees with the total form everywhere. -/
lemma gradientDotV2_eq_some (perm : ℕ) (x y : ℚ) :
    gradientDotV2? perm x y = some (gradientDotV2 perm x y) := by
  unfold gradientDotV2? gradientDotV2
  have h4 : perm % 4 < 4 := Nat.mod_lt _ (by norm_num)
  rcases hm : perm % 4 with _ | _ | _ | _ | m <;> simp [hm] at h4 ⊢ <;> omega

/-- The fallible 3-D gradient matcher never takes its `unreachable!()` arm. -/
lemma gradientDotV3_eq_some (perm : ℕ) (x y z : ℚ) :
    gradientDotV3? perm x y z = some (gradientDotV3 perm x y z) := by
  unfold gradientDotV3? gradientDotV3
  have h16 : perm % 16 < 16 := Nat.mod_lt _ (by norm_num)
  rcases hm : perm % 16 with
    _ | _ | _ | _ | _ | _ | _ | _ | _ | _ | _ | _ | _ | _ | _ | _ | m <;>
    simp [hm] at h16 ⊢ <;> omega

/-- The total 2-D gradient contribution is the dot product of the selected
direction with the offset. -/
lemma gradientDotV2_eq_dot (h : ℕ) (x y : ℚ) :
    gradientDotV2 h x y = dot2 (specGradient2 h) (x, y) := by
  unfold gradientDotV2 specGradient2 dot2
  rcases hm : h % 4 with _ | _ | _ | m <;> simp [hm] <;> ring

/-- Lemma: `clampQ` really lands in the interval. -/
lemma clampQ_mem (v lo hi : ℚ) (h : lo ≤ hi) :
    lo ≤ clampQ v lo hi ∧ clampQ v lo hi ≤ hi := by
  unfold clampQ
  split_ifs <;> constructor <;> linarith

/-- Lemma: `clampN` lands in the interval. -/
lemma clampN_mem (v lo hi : ℕ) (h : lo ≤ hi) :
    lo ≤ clampN v lo hi ∧ clampN v lo hi ≤ hi := by
  unfold clampN
  split_ifs <;> omega

/-- Lemma: `build_sources` always returns `octaves`-many sources. -/
lemma build_sources_length (seed octaves : ℕ) :
    (build_sources seed octaves).length = octaves := by
  simp [build_sources]

/-- The 2-D octave loop, folded over indices `1 .. k`, reproduces the
spec-side state recurrence. -/
lemma specHybridState2_foldl (hm : HybridMulti) (q : ℚ × ℚ) :
    ∀ k, (List.range' 1 k).foldl hm.octaveStep2 (specHybridState2 hm q 0) =
      specHybridState2 hm q k := by
  intro k
  induction k with
  | zero => rfl
  | succ n ih =>
      rw [List.range'_concat, List.foldl_append, ih]
      simp only [List.foldl_cons, List.foldl_nil, one_mul, Nat.add_comm 1 n]
      rfl

/-- The 3-D octave loop reproduces the spec-side state recurrence. -/
lemma specHybridState3_foldl (hm : HybridMulti) (q : ℚ × ℚ × ℚ) :
    ∀ k, (List.range' 1 k).foldl hm.octaveStep3 (specHybridState3 hm q 0) =
      specHybridState3 hm q k := by
  intro k
  induction k with
  | zero => rfl
  | succ n ih =>
      rw [List.range'_concat, List.foldl_append, ih]
      simp only [List.foldl_cons, List.foldl_nil, one_mul, Nat.add_comm 1 n]
      rfl

/-- The 4-D octave loop reproduces the spec-side state recurrence. -/
lemma specHybridState4_foldl (hm : HybridMulti) (q : ℚ × ℚ × ℚ × ℚ) :
    ∀ k, (List.range' 1 k).foldl hm.octaveStep4 (specHybridState4 hm q 0) =
      specHybridState4 hm q k := by
  intro k
  induction k with
  | zero => rfl
  | succ n ih =>
      rw [List.range'_concat, List.foldl_append, ih]
      simp only [List.foldl_cons, List.foldl_nil, one_mul, Nat.add_comm 1 n]
      rfl

/-! ### Claim theorems -/

/-- C8: `set_seed` with the current seed returns the Perlin instance
unchanged (same seed and permutation table, no rebuild); `set_seed` with the
current seed and `set_octaves` with the current octave count return the
HybridMulti instance unchanged. -/
theorem noop_setters :
    (∀ p : Perlin, p.set_seed p.seed = p) ∧
    (∀ hm : HybridMulti,
      hm.set_seed hm.seed = hm ∧ hm.set_octaves hm.octaves = hm) := by
  refine ⟨fun p => ?_, fun hm => ⟨?_, ?_⟩⟩ <;>
    simp [Perlin.set_seed, HybridMulti.set_seed, HybridMulti.set_octaves]

/-- C9: `set_frequency`, `set_lacunarity` and `set_persistence` each replace
only their own scalar field; octaves, seed, sources and the two other
scalars are exactly those of the original instance. -/
theorem scalar_setters_frame (hm : HybridMulti) (v : ℚ) :
    ((hm.set_frequency v).frequency = v ∧
      (hm.set_frequency v).octaves = hm.octaves ∧
      (hm.set_frequency v).lacunarity = hm.lacunarity ∧
      (hm.set_frequency v).persistence = hm.persistence ∧
      (hm.set_frequency v).seed = hm.seed ∧
      (hm.set_frequency v).sources = hm.sources) ∧
    ((hm.set_lacunarity v).lacunarity = v ∧
      (hm.set_lacunarity v).octaves = hm.octaves ∧
      (hm.set_lacunarity v).frequency = hm.frequency ∧
      (hm.set_lacunarity v).persistence = hm.persistence ∧
      (hm.set_lacunarity v).seed = hm.seed ∧
      (hm.set_lacunarity v).sources = hm.sources) ∧
    ((hm.set_persistence v).persistence = v ∧
      (hm.set_persistence v).octaves = hm.octaves ∧
      (hm.set_persistence v).frequency = hm.frequency ∧
      (hm.set_persistence v).lacunarity = hm.lacunarity ∧
      (hm.set_persistence v).seed = hm.seed ∧
      (hm.set_persistence v).sources = hm.sources) :=
  ⟨⟨rfl, rfl, rfl, rfl, rfl, rfl⟩, ⟨rfl, rfl, rfl, rfl, rfl, rfl⟩,
    ⟨rfl, rfl, rfl, rfl, rfl, rfl⟩⟩

/-- C10: the `unreachable!()` arms of the 2-D and 3-D gradient selectors are
dead code — masking any hash with `0b11` (2-D) or `0b1111` (3-D) always
hits a covered case, so gradient selection is total and never panics. -/
theorem gradient_selection_total (perm : ℕ) (x y z : ℚ) :
    (gradientDotV2? perm x y).isSome = true ∧
    (gradientDotV3? perm x y z).isSome = true := by
  rw [gradientDotV2_eq_some, gradientDotV3_eq_some]
  exact ⟨rfl, rfl⟩

/-- C6: for every Perlin instance and 2-D point, `get` floors the point,
smooths the fractional offsets with the quintic `6t⁵−15t⁴+10t³` into weights
`u,v`, selects one of the 4 gradient directions (1,1), (-1,1), (1,-1),
(-1,-1) per corner by the low 2 bits of the permutation hash, dots it with
the corner's fractional offset, and returns `k0 + k1*u + k2*v + k3*u*v`
with `k0=a, k1=b-a, k2=c-a, k3=a+d-b-c`. -/
theorem perlin2_kernel_formula (p : Perlin) (q : ℚ × ℚ) :
    p.get2 q = specPerlinGet2 p q := by
  simp only [Perlin.get2, specPerlinGet2, gradientDotV2_eq_dot]

/-- C7: at a point with exact integer coordinates the 2-D and 3-D kernels
return precisely the near corner's own gradient dotted with the zero offset
(all interpolation weights vanish, leaving the `k0` term alone),
independent of the neighboring corners' hashes and gradients. -/
theorem perlin_lattice_exactness (p : Perlin) (x y z : ℤ) :
    p.get2 ((x : ℚ), (y : ℚ)) = gradientDotV2 (p.perm_table.get2 (x, y)) 0 0 ∧
    p.get3 ((x : ℚ), (y : ℚ), (z : ℚ)) =
      gradientDotV3 (p.perm_table.get3 (x, y, z)) 0 0 0 := by
  constructor
  · simp only [Perlin.get2, Int.floor_intCast, sub_self]
    norm_num [s_curve5]
  · simp only [Perlin.get3, Int.floor_intCast, sub_self]
    norm_num [s_curve5]

/-- C5: the 4-D kernel is the clamped, scaled sum of the 16 corner surflet
terms — `get(p) = clamp(S * 4.424369240215691, -1, 1)` with each term
`attn⁴ * dot(offset, gradient)` when `attn = 1 - dot(offset, offset)` is
positive and `0` otherwise — and consequently the 4-D output always lies
within `[-1, 1]`. -/
theorem perlin4_surflet_formula (p : Perlin) (q : ℚ × ℚ × ℚ × ℚ) :
    p.get4 q = clampQ (specSurfletSum p q * perlin4Scale) (-1) 1 ∧
    -1 ≤ p.get4 q ∧ p.get4 q ≤ 1 := by
  have hss : specSurflet = surflet := rfl
  constructor
  · simp only [Perlin.get4, specSurfletSum, corners4, pickNF, hss,
      List.map_cons, List.map_nil, List.sum_cons, List.sum_nil,
      Bool.cond_eq_ite, if_true, if_false]
    ring_nf
  · simp only [Perlin.get4]
    exact clampQ_mem _ _ _ (by norm_num)

/-- C1: for every HybridMulti instance with octaves in `[1,32]` and the
source-count invariant, and every 2/3/4-D point, `get` equals the narrated
computation: scale by frequency; `result = weight = sources[0].get * p`;
per octave `i ≥ 1` clamp `weight` to at least 1, rescale the point by
lacunarity, `signal = sources[i].get * p^i`, `result += weight * signal`,
`weight *= signal`; finally multiply by 3.0. -/
theorem hybridMulti_get_matches_spec (hm : HybridMulti)
    (h1 : 1 ≤ hm.octaves) (h2 : hm.octaves ≤ 32)
    (hlen : hm.sources.length = hm.octaves) :
    (∀ q : ℚ × ℚ, hm.get2 q = specHybridGet2 hm q) ∧
    (∀ q : ℚ × ℚ × ℚ, hm.get3 q = specHybridGet3 hm q) ∧
    (∀ q : ℚ × ℚ × ℚ × ℚ, hm.get4 q = specHybridGet4 hm q) := by
  refine ⟨fun q => ?_, fun q => ?_, fun q => ?_⟩
  · show ((List.range' 1 (hm.octaves - 1)).foldl hm.octaveStep2
      (specHybridState2 hm q 0)).2.1 * 3 = _
    rw [specHybridState2_foldl]
    rfl
  · show ((List.range' 1 (hm.octaves - 1)).foldl hm.octaveStep3
      (specHybridState3 hm q 0)).2.1 * 3 = _
    rw [specHybridState3_foldl]
    rfl
  · show ((List.range' 1 (hm.octaves - 1)).foldl hm.octaveStep4
      (specHybridState4 hm q 0)).2.1 * 3 = _
    rw [specHybridState4_foldl]
    rfl

/-- C2 counterexample: a single-octave instance (unit frequency and
persistence, all-zero table) where `get` does **not** return
`persistence * sources[0].get(point * frequency)` — the code multiplies the
final result by 3.0 even when there is only one octave. -/
theorem singleOctave_claim_counterexample :
    hmOne.octaves = 1 ∧
    ¬ (hmOne.get2 (1 / 4, 0) =
        hmOne.persistence *
          ((hmOne.sourceAt 0).get2
            ((1 / 4 : ℚ) * hmOne.frequency, (0 : ℚ) * hmOne.frequency))) := by
  refine ⟨rfl, ?_⟩
  simp [HybridMulti.get2, HybridMulti.sourceAt, Perlin.get2,
    PermutationTable.get2, gradientDotV2, s_curve5, wrap256, tableZero, pZero,
    hmOne, List.range']
  norm_num [Int.fract]

/-- C2 (amended): for every HybridMulti instance with `octaves = 1` and
every 2/3/4-D point, `get` returns exactly
`3.0 * (persistence * sources[0].get(point scaled by frequency))`. -/
theorem singleOctave_equivalence_amended (hm : HybridMulti)
    (h : hm.octaves = 1) :
    (∀ q : ℚ × ℚ, hm.get2 q =
      3 * (hm.persistence *
        (hm.sourceAt 0).get2 (q.1 * hm.frequency, q.2 * hm.frequency))) ∧
    (∀ q : ℚ × ℚ × ℚ, hm.get3 q =
      3 * (hm.persistence *
        (hm.sourceAt 0).get3
          (q.1 * hm.frequency, q.2.1 * hm.frequency, q.2.2 * hm.frequency))) ∧
    (∀ q : ℚ × ℚ × ℚ × ℚ, hm.get4 q =
      3 * (hm.persistence *
        (hm.sourceAt 0).get4 (q.1 * hm.frequency, q.2.1 * hm.frequency,
          q.2.2.1 * hm.frequency, q.2.2.2 * hm.frequency))) := by
  refine ⟨fun q => ?_, fun q => ?_, fun q => ?_⟩ <;>
  · simp only [HybridMulti.get2, HybridMulti.get3, HybridMulti.get4, h]
    simp only [Nat.sub_self, List.range', List.foldl_nil]
    ring

/-- Any Perlin instance reachable through `new`/`set_seed` carries exactly
the permutation table derived from its current seed. -/
lemma perlinReach_table {p : Perlin} (h : PerlinReach p) :
    p.perm_table = PermutationTable.new p.seed := by
  induction h with
  | base => rfl
  | reseed p s _ ih =>
      unfold Perlin.set_seed
      split_ifs with hs
      · exact ih
      · rfl

/-- C3: evaluation is a deterministic function of `(seed, point)` — two
independently constructed Perlin instances (via `new`/`set_seed`) with the
same seed return identical results from `get` at every 2/3/4-D point. -/
theorem perlin_determinism (p1 p2 : Perlin) (h1 : PerlinReach p1)
    (h2 : PerlinReach p2) (hs : p1.seed = p2.seed) :
    (∀ q : ℚ × ℚ, p1.get2 q = p2.get2 q) ∧
    (∀ q : ℚ × ℚ × ℚ, p1.get3 q = p2.get3 q) ∧
    (∀ q : ℚ × ℚ × ℚ × ℚ, p1.get4 q = p2.get4 q) := by
  have e : p1 = p2 := by
    have t1 := perlinReach_table h1
    have t2 := perlinReach_table h2
    cases p1
    cases p2
    simp_all
  subst e
  exact ⟨fun _ => rfl, fun _ => rfl, fun _ => rfl⟩

/-- C4: every HybridMulti instance reachable from `new()` by any finite
sequence of `set_octaves`/`set_seed` calls keeps `sources.length = octaves`,
and its octave count always lies in `[1, 32]` (in particular after any
`set_octaves` call that changes the value). -/
theorem hybridMulti_octave_invariant (hm : HybridMulti)
    (h : HybridReach hm) :
    hm.sources.length = hm.octaves ∧ 1 ≤ hm.octaves ∧ hm.octaves ≤ 32 := by
  induction h with
  | base =>
      refine ⟨build_sources_length _ _, ?_, ?_⟩ <;>
        norm_num [HybridMulti.new, HybridMulti.DEFAULT_OCTAVES]
  | octs hm n _ ih =>
      unfold HybridMulti.set_octaves
      split_ifs with he
      · exact ih
      · exact ⟨build_sources_length _ _,
          (clampN_mem n 1 HybridMulti.MAX_OCTAVES (by decide)).1,
          (clampN_mem n 1 HybridMulti.MAX_OCTAVES (by decide)).2⟩
  | reseed hm s _ ih =>
      unfold HybridMulti.set_seed
      split_ifs with he
      · exact ih
      · exact ⟨build_sources_length _ _, ih.2.1, ih.2.2⟩

/-! ### Witnesses -/

/-- Witness for C1: concrete single-octave instance and point. -/
theorem hybridMulti_get_matches_spec_witness :
    1 ≤ hmOne.octaves ∧ hmOne.octaves ≤ 32 ∧
      hmOne.sources.length = hmOne.octaves ∧
      hmOne.get2 (1 / 4, 0) = specHybridGet2 hmOne (1 / 4, 0) :=
  ⟨by decide, by decide, by decide,
    (hybridMulti_get_matches_spec hmOne (by decide) (by decide)
      (by decide)).1 (1 / 4, 0)⟩

/-- Witness for C2 (amended): the concrete single-octave instance. -/
theorem singleOctave_equivalence_amended_witness :
    hmOne.octaves = 1 ∧
      hmOne.get2 (1 / 4, 0) =
        3 * (hmOne.persistence *
          (hmOne.sourceAt 0).get2
            ((1 / 4 : ℚ) * hmOne.frequency, (0 : ℚ) * hmOne.frequency)) :=
  ⟨rfl, (singleOctave_equivalence_amended hmOne rfl).1 (1 / 4, 0)⟩

/-- Witness for C3: two instances both built as `new().set_seed(1)`. -/
theorem perlin_determinism_witness :
    (Perlin.new.set_seed 1).get2 (0, 0) =
      (Perlin.new.set_seed 1).get2 (0, 0) :=
  (perlin_determinism (Perlin.new.set_seed 1) (Perlin.new.set_seed 1)
    (PerlinReach.reseed _ 1 PerlinReach.base)
    (PerlinReach.reseed _ 1 PerlinReach.base) rfl).1 (0, 0)

/-- Witness for C4: a reachable instance after an out-of-range
`set_octaves(100)` request. -/
theorem hybridMulti_octave_invariant_witness :
    (HybridMulti.new.set_octaves 100).sources.length =
        (HybridMulti.new.set_octaves 100).octaves ∧
      1 ≤ (HybridMulti.new.set_octaves 100).octaves ∧
      (HybridMulti.new.set_octaves 100).octaves ≤ 32 :=
  hybridMulti_octave_invariant (HybridMulti.new.set_octaves 100)
    (HybridReach.octs _ 100 HybridReach.base)

end NoiseRs
